import Mathlib

set_option maxHeartbeats 1000000

/-!
Shallow embedding of `tortik_tests/runtests.py`: the warning-filter policy
engine, the log-severity counter (`LogCounter`), the skip-reason reporting
runner (`TornadoTextTestRunner.run`), the ioloop configuration callback
(`configure_ioloop`), the gc debug-flag callback and the http-client
configuration callback, together with proofs of the specified properties.
-/

/-- Action of a warning filter rule: escalate the warning to a hard error,
or ignore (suppress) it. -/
inductive FAction where
  | error
  | ignore
deriving DecidableEq

/-- A warning event: its category tag, the qualified name of the module it
originates from, and its message text. -/
structure WarningEvent where
  category : String
  modName : String
  message : String
deriving DecidableEq

/-- Modelled from the spec: a warning filter rule (the `WarningFilterRule`
of the data model; the rule store itself lives in Python's `warnings`
module, outside this repository). It carries an action, a category tag
(`none` means the rule applies to every category, as the blanket
`warnings.filterwarnings("error")` rules do), a module pattern and a
message pattern (`none` means "any"; a concrete pattern is modelled as a
predicate on strings, standing for the regular-expression match). -/
structure FilterRule where
  action : FAction
  category : Option String
  moduleMatch : Option (String → Bool)
  messageMatch : Option (String → Bool)

/-- Pattern match for the module / message components: `none` is "any". -/
def patMatch : Option (String → Bool) → String → Bool
  | none, _ => true
  | some p, s => p s

/-- Category match: `none` matches every category, otherwise the tags must
coincide. -/
def catMatch : Option String → String → Bool
  | none, _ => true
  | some c, c2 => c == c2

/-- A rule matches an event when its category, module pattern and message
pattern all match. -/
def ruleMatches (r : FilterRule) (e : WarningEvent) : Bool :=
  catMatch r.category e.category && patMatch r.moduleMatch e.modName &&
    patMatch r.messageMatch e.message

/-- Modelled from the spec: `registerRule` appends the new rule to the
ordered rule list. -/
def registerRule (rules : List FilterRule) (r : FilterRule) : List FilterRule :=
  rules ++ [r]

/-- The rule list obtained by registering, in order, every rule of a
registration sequence, starting from the empty list. -/
def registerAll (regs : List FilterRule) : List FilterRule :=
  regs.foldl registerRule []

/-- Modelled from the spec: `classify` scans the rule list from most
recently registered to least recently registered and returns the action of
the first matching rule, else the ambient default action. -/
def classify (rules : List FilterRule) (dflt : FAction) (e : WarningEvent) : FAction :=
  match rules.reverse.find? (fun r => ruleMatches r e) with
  | some r => r.action
  | none => dflt

/-- The last rule, in registration order, that matches the event. -/
def lastMatching : List FilterRule → WarningEvent → Option FilterRule
  | [], _ => none
  | r :: rs, e =>
    match lastMatching rs e with
    | some r2 => some r2
    | none => if ruleMatches r e then some r else none

/-- Rule R1 of the spec example: escalate every warning of category `A` to
an error, whatever its module and message
(`warnings.filterwarnings("error", category=A)`). -/
def broadErrorRule (A : String) : FilterRule :=
  ⟨FAction.error, some A, none, none⟩

/-- Rule R2 of the spec example: ignore warnings of category `A` whose
module matches `M`, whatever the message
(`warnings.filterwarnings("ignore", category=A, module=M)`). -/
def scopedIgnoreRule (A : String) (M : String → Bool) : FilterRule :=
  ⟨FAction.ignore, some A, some M, none⟩

/-- `logging.WARNING`. -/
def WARNING : Int := 30

/-- `logging.ERROR`. -/
def ERROR : Int := 40

/-- `LogCounter` from the source: counts WARNING-or-higher log records. -/
structure LogCounter where
  warning_count : Nat
  error_count : Nat
deriving DecidableEq

/-- `LogCounter.__init__`: both counts start at zero. -/
def LogCounter.new : LogCounter := ⟨0, 0⟩

/-- `LogCounter.filter` from the source: a record at or above
`logging.ERROR` increments `error_count`, otherwise one at or above
`logging.WARNING` increments `warning_count`; the method always returns
`True` (the record is never suppressed). -/
def LogCounter.filter (c : LogCounter) (levelno : Int) : LogCounter × Bool :=
  if ERROR ≤ levelno then ({ c with error_count := c.error_count + 1 }, true)
  else if WARNING ≤ levelno then ({ c with warning_count := c.warning_count + 1 }, true)
  else (c, true)

/-- Feeding a whole stream of log records (their `levelno`s) through the
counter, in emission order. -/
def observeAll (c : LogCounter) (records : List Int) : LogCounter :=
  records.foldl (fun a l => (a.filter l).1) c

/-- A test-session result as consumed by `TornadoTextTestRunner.run`:
`skipped` is the ordered list of (test identifier, skip reason) pairs,
`failures` and `errors` carry the diagnostic texts. -/
structure SessionResult where
  skipped : List (String × String)
  failures : List String
  errors : List String
deriving DecidableEq

/-- `sorted(set(reason for (test, reason) in result.skipped))` from the
source: the distinct skip reasons, in ascending lexicographic order. -/
def sortedSkipReasons (skipped : List (String × String)) : List String :=
  ((skipped.map Prod.snd).dedup).mergeSort

/-- The digest paragraph text built by `TornadoTextTestRunner.run` (the
argument handed to `textwrap.fill`; the line wrapping performed by the
external `textwrap` module is presentation only and is not modelled). -/
def skipDigest (skipped : List (String × String)) : String :=
  "Some tests were skipped because: " ++
    String.intercalate ", " (sortedSkipReasons skipped)

/-- `TornadoTextTestRunner.run` from the source: runs the underlying
runner, then, if the result has a non-empty `skipped` list, writes the
wrapped skip digest followed by a newline; it returns the underlying
result itself. The return value models the pair (returned result, extra
text written to the stream). -/
def tornadoTextTestRunner_run (result : SessionResult) : SessionResult × String :=
  (result,
    if result.skipped.isEmpty then ""
    else skipDigest result.skipped ++ "\n")

/-- The effect of `configure_ioloop` on the ioloop singleton: either no
`IOLoop.configure` call at all, or a call with the chosen implementation
name and whether a monotonic `time_func` keyword was passed. -/
inductive IOLoopEffect where
  | noConfigure
  | configured (impl : Option String) (monotonicTimeFunc : Bool)
deriving DecidableEq

/-- Python truthiness of an optional string option (`None` and the empty
string are falsy). -/
def pyTruthyStr : Option String → Bool
  | none => false
  | some s => !(s == "")

/-- `configure_ioloop` from the source: if `ioloop_time_monotonic` is set,
look up `tornado.platform.auto.monotonic_time` (modelled by the
`monotonicTime` argument, `none` when the platform has no monotonic clock)
and raise `RuntimeError("monotonic clock not found")` when it is absent,
else pass it as `time_func`; then call `IOLoop.configure` whenever an
implementation was named or a `time_func` keyword was collected. -/
def configure_ioloop (ioloopOpt : Option String) (ioloopTimeMonotonic : Bool)
    (monotonicTime : Option Unit) : Except String IOLoopEffect :=
  if ioloopTimeMonotonic then
    match monotonicTime with
    | none => Except.error "monotonic clock not found"
    | some _ => Except.ok (IOLoopEffect.configured ioloopOpt true)
  else if pyTruthyStr ioloopOpt then
    Except.ok (IOLoopEffect.configured ioloopOpt false)
  else
    Except.ok IOLoopEffect.noConfigure

/-- `TEST_MODULES` from the source: the fixed list of test module names. -/
def TEST_MODULES : List String :=
  ["tortik_tests.pep8_test",
   "tortik_tests.import_test",
   "tortik_tests.debug_test",
   "tortik_tests.dumper_test",
   "tortik_tests.exceptions_test",
   "tortik_tests.make_request_test",
   "tortik_tests.util_test",
   "tortik_tests.postprocessor_test",
   "tortik_tests.preprocessor_test"]

/-- Modelled from the spec: suite loading
(`unittest.defaultTestLoader.loadTestsFromNames`, which lives outside this
repository) resolves each module identifier to its test cases; an
unresolvable identifier is a fatal load error that fails the whole run, so
no partial suite is ever produced. -/
def loadTestsFromNames (resolve : String → Option (List String)) :
    List String → Except String (List String)
  | [] => Except.ok []
  | n :: rest =>
    match resolve n with
    | none => Except.error n
    | some ts =>
      match loadTestsFromNames resolve rest with
      | Except.error m => Except.error m
      | Except.ok suite => Except.ok (ts ++ suite)

/-- `all` from the source: load the test suite from the fixed module list
(the loader itself is modelled from the spec in `loadTestsFromNames`). -/
def all (resolve : String → Option (List String)) : Except String (List String) :=
  loadTestsFromNames resolve TEST_MODULES

/-- Python `reduce(operator.or_, xs)`: left fold of bitwise or seeded with
the first element; `none` on an empty sequence (where Python raises). -/
def reduceOr : List Nat → Option Nat
  | [] => none
  | x :: xs => some (xs.foldl (fun a b => a ||| b) x)

/-- The `debug_gc` option callback from the source: look up each named
flag on the `gc` module (the external module is modelled by the
`getattrGc` environment) and combine them with `reduce(operator.or_, ...)`;
the combined value is what `gc.set_debug` installs. -/
def debug_gc_callback (getattrGc : String → Nat) (values : List String) : Option Nat :=
  reduceOr (values.map getattrGc)

/-- The configuration recorded by
`AsyncHTTPClient.configure(s, defaults=dict(allow_ipv6=False))`: the
chosen implementation name and the defaults dictionary passed along (the
client itself is an external collaborator; we record the arguments). -/
structure HTTPClientConfig where
  impl : String
  defaults : List (String × Bool)
deriving DecidableEq

/-- The `httpclient` option callback from the source. -/
def httpclient_callback (s : String) : HTTPClientConfig :=
  { impl := s, defaults := [("allow_ipv6", false)] }

theorem foldl_registerRule (regs : List FilterRule) (init : List FilterRule) :
    regs.foldl registerRule init = init ++ regs := by
  induction regs generalizing init with
  | nil => simp
  | cons r rs ih => simp [List.foldl_cons, registerRule, ih]

theorem registerAll_eq (regs : List FilterRule) : registerAll regs = regs := by
  simpa using foldl_registerRule regs []

theorem find_reverse_eq_lastMatching (rules : List FilterRule) (e : WarningEvent) :
    rules.reverse.find? (fun r => ruleMatches r e) = lastMatching rules e := by
  induction rules with
  | nil => rfl
  | cons r rs ih =>
    rw [List.reverse_cons, List.find?_append, ih, lastMatching]
    cases h : lastMatching rs e with
    | some r2 => rfl
    | none =>
      cases hr : ruleMatches r e <;> simp [List.find?, hr]

/-- C1: for every sequence of rule registrations and every warning event,
classification returns the action of the last-registered rule whose
category, module pattern and message pattern all match the event; if no
registered rule matches, the ambient default action applies (in the
program the default is `error`, since the blanket rule registered first
matches every event). -/
theorem classify_eq_last_registered_match (regs : List FilterRule) (dflt : FAction)
    (e : WarningEvent) :
    classify (registerAll regs) dflt e =
      match lastMatching regs e with
      | some r => r.action
      | none => dflt := by
  unfold classify
  rw [registerAll_eq, find_reverse_eq_lastMatching]

/-- C3: registering the broad rule R1 (error, category `A`, any module,
any message) and then the scoped rule R2 (ignore, category `A`, module
pattern `M`, any message) makes every category-`A` event from a module
matching `M` ignored, and every category-`A` event from a module not
matching `M` escalated to error. -/
theorem scoped_ignore_overrides_broad_error (A : String) (M : String → Bool)
    (dflt : FAction) (m msg : String) :
    (M m = true →
      classify (registerAll [broadErrorRule A, scopedIgnoreRule A M]) dflt
        ⟨A, m, msg⟩ = FAction.ignore) ∧
    (M m = false →
      classify (registerAll [broadErrorRule A, scopedIgnoreRule A M]) dflt
        ⟨A, m, msg⟩ = FAction.error) := by
  rw [registerAll_eq]
  constructor <;> intro h <;>
    simp [classify, List.find?, ruleMatches, catMatch, patMatch,
      broadErrorRule, scopedIgnoreRule, h]

/-- Concrete instance of C3: with category `DeprecationWarning` and module
pattern "equals tornado.web", an event from `tornado.web` is ignored and
an event from `requests.api` is escalated to error. -/
theorem scoped_ignore_overrides_broad_error_witness :
    (((fun s => s == "tornado.web") "tornado.web") = true ∧
      classify (registerAll [broadErrorRule "DeprecationWarning",
          scopedIgnoreRule "DeprecationWarning" (fun s => s == "tornado.web")])
        FAction.error
        ⟨"DeprecationWarning", "tornado.web", "gen.Task is deprecated"⟩
        = FAction.ignore) ∧
    (((fun s => s == "tornado.web") "requests.api") = false ∧
      classify (registerAll [broadErrorRule "DeprecationWarning",
          scopedIgnoreRule "DeprecationWarning" (fun s => s == "tornado.web")])
        FAction.error
        ⟨"DeprecationWarning", "requests.api", "gen.Task is deprecated"⟩
        = FAction.error) :=
  ⟨⟨by decide,
    (scoped_ignore_overrides_broad_error "DeprecationWarning"
      (fun s => s == "tornado.web") FAction.error "tornado.web"
      "gen.Task is deprecated").1 (by decide)⟩,
   ⟨by decide,
    (scoped_ignore_overrides_broad_error "DeprecationWarning"
      (fun s => s == "tornado.web") FAction.error "requests.api"
      "gen.Task is deprecated").2 (by decide)⟩⟩

/-- `record.levelno >= logging.ERROR`. -/
def isErrorLevel (l : Int) : Bool := ERROR ≤ l

/-- `logging.WARNING <= record.levelno < logging.ERROR`. -/
def isWarningLevel (l : Int) : Bool := WARNING ≤ l && l < ERROR

/-- `record.levelno >= logging.WARNING`. -/
def isSevereLevel (l : Int) : Bool := WARNING ≤ l

theorem observeAll_counts (records : List Int) (c : LogCounter) :
    (observeAll c records).error_count
        = c.error_count + records.countP isErrorLevel ∧
    (observeAll c records).warning_count
        = c.warning_count + records.countP isWarningLevel := by
  induction records generalizing c with
  | nil => simp [observeAll]
  | cons l ls ih =>
    have hstep : observeAll c (l :: ls) = observeAll ((c.filter l).1) ls := rfl
    rw [hstep]
    by_cases h40 : ERROR ≤ l
    · have h40i : (40 : Int) ≤ l := by simpa [ERROR] using h40
      have hfil : (c.filter l).1 = ⟨c.warning_count, c.error_count + 1⟩ := by
        simp [LogCounter.filter, h40]
      have he : isErrorLevel l = true := by simp [isErrorLevel, h40]
      have hw : isWarningLevel l = false := by
        simp [isWarningLevel, WARNING, ERROR]
        omega
      rw [hfil]
      rcases ih ⟨c.warning_count, c.error_count + 1⟩ with ⟨ihe, ihw⟩
      rw [ihe, ihw]
      simp [List.countP_cons, he, hw]
      omega
    · by_cases h30 : WARNING ≤ l
      · have h40i : ¬ (40 : Int) ≤ l := by simpa [ERROR] using h40
        have h30i : (30 : Int) ≤ l := by simpa [WARNING] using h30
        have hfil : (c.filter l).1 = ⟨c.warning_count + 1, c.error_count⟩ := by
          simp [LogCounter.filter, h40, h30]
        have he : isErrorLevel l = false := by simp [isErrorLevel, h40]
        have hw : isWarningLevel l = true := by
          simp [isWarningLevel, WARNING, ERROR]
          omega
        rw [hfil]
        rcases ih ⟨c.warning_count + 1, c.error_count⟩ with ⟨ihe, ihw⟩
        rw [ihe, ihw]
        simp [List.countP_cons, he, hw]
        omega
      · have hfil : (c.filter l).1 = c := by
          simp [LogCounter.filter, h40, h30]
        have he : isErrorLevel l = false := by simp [isErrorLevel, h40]
        have hw : isWarningLevel l = false := by
          simp [isWarningLevel]
          intro hc
          exact absurd hc h30
        rw [hfil]
        rcases ih c with ⟨ihe, ihw⟩
        rw [ihe, ihw]
        simp [List.countP_cons, he, hw]

theorem countP_warning_split (records : List Int) :
    records.countP isWarningLevel + records.countP isErrorLevel
      = records.countP isSevereLevel := by
  induction records with
  | nil => rfl
  | cons l ls ih =>
    by_cases h40 : (40 : Int) ≤ l
    · have h30 : (30 : Int) ≤ l := by omega
      have he : isErrorLevel l = true := by simp [isErrorLevel, ERROR, h40]
      have hw : isWarningLevel l = false := by
        simp [isWarningLevel, WARNING, ERROR]
        omega
      have hs : isSevereLevel l = true := by simp [isSevereLevel, WARNING, h30]
      simp [List.countP_cons, he, hw, hs, ih]
      omega
    · by_cases h30 : (30 : Int) ≤ l
      · have he : isErrorLevel l = false := by simp [isErrorLevel, ERROR, h40]
        have hw : isWarningLevel l = true := by
          simp [isWarningLevel, WARNING, ERROR]
          omega
        have hs : isSevereLevel l = true := by simp [isSevereLevel, WARNING, h30]
        simp [List.countP_cons, he, hw, hs, ih]
        omega
      · have he : isErrorLevel l = false := by simp [isErrorLevel, ERROR]; omega
        have hw : isWarningLevel l = false := by
          simp [isWarningLevel, WARNING, ERROR]
          omega
        have hs : isSevereLevel l = false := by simp [isSevereLevel, WARNING]; omega
        simp [List.countP_cons, he, hw, hs, ih]

/-- C2: after observing any stream of log records, `error_count` is the
number of records at or above `logging.ERROR`, `warning_count` is the
number of records at or above `logging.WARNING` but below `logging.ERROR`
(records below `logging.WARNING` change neither count), and their sum is
the number of records at or above `logging.WARNING` — a count that depends
only on how many such records occur, not on the emission order. -/
theorem logCounter_severity_counts (records : List Int) :
    (observeAll LogCounter.new records).error_count
        = records.countP isErrorLevel ∧
    (observeAll LogCounter.new records).warning_count
        = records.countP isWarningLevel ∧
    (observeAll LogCounter.new records).warning_count
        + (observeAll LogCounter.new records).error_count
        = records.countP isSevereLevel := by
  rcases observeAll_counts records LogCounter.new with ⟨he, hw⟩
  refine ⟨by simpa [LogCounter.new] using he, by simpa [LogCounter.new] using hw, ?_⟩
  rw [he, hw]
  simpa [LogCounter.new] using countP_warning_split records

/-- C8: `LogCounter.filter` returns `True` for every observed record,
whatever its severity: observation never suppresses delivery of the
record to normal log output. -/
theorem logCounter_filter_always_true (c : LogCounter) (levelno : Int) :
    (c.filter levelno).2 = true := by
  unfold LogCounter.filter
  split
  · rfl
  · split <;> rfl

/-- C4: for every result with a non-empty `skipped` sequence, the runner
writes the skip digest (after the standard output of the underlying
runner), and the digest's reason list contains each distinct skip reason
exactly once — duplicates across test cases and modules are collapsed —
in ascending lexicographic order. -/
theorem skip_digest_spec (result : SessionResult) (h : result.skipped ≠ []) :
    (tornadoTextTestRunner_run result).2 = skipDigest result.skipped ++ "\n" ∧
    List.Sorted (fun a b => a ≤ b) (sortedSkipReasons result.skipped) ∧
    (sortedSkipReasons result.skipped).Nodup ∧
    ∀ r : String, r ∈ sortedSkipReasons result.skipped ↔
      ∃ t, (t, r) ∈ result.skipped := by
  have hne : result.skipped.isEmpty = false := by
    simp [List.isEmpty_iff, h]
  refine ⟨by simp [tornadoTextTestRunner_run, hne], ?_, ?_, ?_⟩
  · exact List.sorted_mergeSort' _
  · unfold sortedSkipReasons
    exact (List.mergeSort_perm _ _).symm.nodup (List.nodup_dedup _)
  · intro r
    unfold sortedSkipReasons
    rw [(List.mergeSort_perm _ _).mem_iff, List.mem_dedup, List.mem_map]
    constructor
    · rintro ⟨⟨t, r2⟩, hmem, rfl⟩
      exact ⟨t, hmem⟩
    · rintro ⟨t, hmem⟩
      exact ⟨(t, r), hmem, rfl⟩

/-- The spec's worked example: module A has two cases skipped with reason
"no network", module B one case with the same reason. -/
def sampleSkipResult : SessionResult :=
  ⟨[("A.test_one", "no network"), ("A.test_two", "no network"),
    ("B.test_three", "no network")], [], []⟩

/-- Concrete instance of C4 at the spec's example result. -/
theorem skip_digest_spec_witness :
    sampleSkipResult.skipped ≠ [] ∧
    ((tornadoTextTestRunner_run sampleSkipResult).2
        = skipDigest sampleSkipResult.skipped ++ "\n" ∧
      List.Sorted (fun a b => a ≤ b) (sortedSkipReasons sampleSkipResult.skipped) ∧
      (sortedSkipReasons sampleSkipResult.skipped).Nodup ∧
      ∀ r : String, r ∈ sortedSkipReasons sampleSkipResult.skipped ↔
        ∃ t, (t, r) ∈ sampleSkipResult.skipped) :=
  ⟨by decide, skip_digest_spec sampleSkipResult (by decide)⟩

/-- C7: the runner's wrapper returns exactly the result object produced by
the underlying runner, and when the result has no skipped tests it writes
nothing beyond the standard output. -/
theorem runner_returns_result_unmodified (result : SessionResult) :
    (tornadoTextTestRunner_run result).1 = result ∧
    (result.skipped = [] → (tornadoTextTestRunner_run result).2 = "") := by
  constructor
  · rfl
  · intro h
    simp [tornadoTextTestRunner_run, h]

/-- A result with failures and errors but no skipped tests. -/
def sampleCleanResult : SessionResult :=
  ⟨[], ["failure diagnostic"], ["error diagnostic"]⟩

/-- Concrete instance of C7 at a result without skips. -/
theorem runner_returns_result_unmodified_witness :
    sampleCleanResult.skipped = [] ∧
    (tornadoTextTestRunner_run sampleCleanResult).1 = sampleCleanResult ∧
    (tornadoTextTestRunner_run sampleCleanResult).2 = "" :=
  ⟨rfl, (runner_returns_result_unmodified sampleCleanResult).1,
    (runner_returns_result_unmodified sampleCleanResult).2 rfl⟩

/-- C5: when `ioloop_time_monotonic` is set and the platform supplies no
monotonic clock (`tornado.platform.auto.monotonic_time` is `None`), the
post-parse configuration step raises, whatever the `ioloop` option says —
the run aborts in the parse callback, before any test executes. -/
theorem configure_ioloop_monotonic_missing (ioloopOpt : Option String) :
    configure_ioloop ioloopOpt true none
      = Except.error "monotonic clock not found" := rfl

theorem loadTestsFromNames_error_of_unresolvable
    (resolve : String → Option (List String)) (names : List String)
    (h : ∃ n, n ∈ names ∧ resolve n = none) :
    ∃ m, loadTestsFromNames resolve names = Except.error m := by
  induction names with
  | nil =>
    rcases h with ⟨n, hn, _⟩
    cases hn
  | cons n rest ih =>
    rcases h with ⟨n2, hn2, hres⟩
    cases hmem : resolve n with
    | none => exact ⟨n, by simp [loadTestsFromNames, hmem]⟩
    | some ts =>
      rcases List.mem_cons.mp hn2 with rfl | htail
      · rw [hmem] at hres
        cases hres
      · rcases ih ⟨n2, htail, hres⟩ with ⟨m, hm⟩
        exact ⟨m, by simp [loadTestsFromNames, hmem, hm]⟩

/-- C6: if any name of the fixed `TEST_MODULES` list does not resolve to a
test module, suite loading fails with a load error and no suite is
produced, so no test case from any other (resolvable) module executes. -/
theorem all_unresolvable_fatal (resolve : String → Option (List String))
    (h : ∃ n, n ∈ TEST_MODULES ∧ resolve n = none) :
    ∃ m, all resolve = Except.error m :=
  loadTestsFromNames_error_of_unresolvable resolve TEST_MODULES h

/-- Concrete instance of C6 with a resolver that resolves no module. -/
theorem all_unresolvable_fatal_witness :
    (∃ n, n ∈ TEST_MODULES ∧
      (fun (_ : String) => (none : Option (List String))) n = none) ∧
    ∃ m, all (fun _ => none) = Except.error m :=
  ⟨⟨"tortik_tests.pep8_test", by decide, rfl⟩,
   all_unresolvable_fatal (fun _ => none)
     ⟨"tortik_tests.pep8_test", by decide, rfl⟩⟩

/-- C9: for every non-empty list of gc debug flag names, the value handed
to `gc.set_debug` is the left fold by bitwise or of the integer constants
named by those flags. -/
theorem debug_gc_or_fold (getattrGc : String → Nat) (values : List String)
    (h : values ≠ []) :
    debug_gc_callback getattrGc values
      = some ((values.map getattrGc).foldl (fun a b => a ||| b) 0) := by
  cases values with
  | nil => exact absurd rfl h
  | cons v vs =>
    simp [debug_gc_callback, reduceOr, List.map_cons, List.foldl_cons, Nat.zero_or]

/-- Concrete instance of C9 with two flag names. -/
theorem debug_gc_or_fold_witness :
    (["DEBUG_STATS", "DEBUG_COLLECTABLE"] ≠ ([] : List String)) ∧
    debug_gc_callback (fun v => if v = "DEBUG_STATS" then 1 else 2)
        ["DEBUG_STATS", "DEBUG_COLLECTABLE"]
      = some ((["DEBUG_STATS", "DEBUG_COLLECTABLE"].map
          (fun v => if v = "DEBUG_STATS" then 1 else 2)).foldl
            (fun a b => a ||| b) 0) :=
  ⟨by decide, debug_gc_or_fold (fun v => if v = "DEBUG_STATS" then 1 else 2)
    ["DEBUG_STATS", "DEBUG_COLLECTABLE"] (by decide)⟩

/-- C10: whatever backend string the `httpclient` option resolves to, the
HTTP client is configured with the default `allow_ipv6 = False`. -/
theorem httpclient_allow_ipv6_disabled (s : String) :
    (httpclient_callback s).defaults.lookup "allow_ipv6" = some false := rfl
